import Mathlib

/-!
Verification of the SqliteWrapper connection/execution state machine.

Shallow embedding of `src/OfficialSqliteTest/SqliteWrapper.{h,cpp}` (namespace
`A3D`, class `SqliteWrapper`).

Modelling conventions:

* The engine handle `sqlite3*` is abstracted as `Option Nat`: `some h` is a
  live, usable handle, `none` means no usable handle exists.  An engine
  `open` call is modelled by an `Option Nat` parameter: `some h` when the
  open succeeds and delivers handle `h`, `none` when it fails to deliver a
  usable replacement handle.
* Engine NULL column values are `Option.none` cells in a callback row.
* The external engine's behaviour during one `ExecStatement` call is an
  environment `Env`: the status code and callback rows of the n-th
  submission, the `sqlite3_changes` value after the n-th submission, the
  outcome of the n-th reconnect open, and the value of the member
  `m_timeoutMs` observed by the n-th loop iteration (a constant function in a
  single-threaded run; a non-constant schedule models an interleaved
  `SetTimeout` on another thread).
* Lock operations, engine calls, sleeps and diagnostics are recorded in an
  event trace, so guard discipline and ordering claims become statements
  about the trace.  `sleeps` and `reconnects` are ghost counters.
-/

namespace A3D

/-- Engine status codes consumed by the wrapper (sqlite3.h values). -/
def SQLITE_OK : Int := 0

/-- SQLITE_BUSY: lock contention, retryable. -/
def SQLITE_BUSY : Int := 5

/-- SQLITE_IOERR: fatal I/O error, recovered via reconnect. -/
def SQLITE_IOERR : Int := 10

/-- Observable events of one wrapper operation: readers-writer guard
operations on `m_dbConnectionMutex`, engine calls, the 15 ms backoff sleep,
diagnostics printed to std::cout, and the engine open/close performed by
`InitDatabase`/`Reconnect`/`DestroyDatabase`. -/
inductive Event where
  | lockExclusive
  | unlockExclusive
  | lockShared
  | unlockShared
  | execCall
  | changesCall
  | sleep15
  | reconnectAttempt
  | rollbackAttempt
  | closeHandle
  | openHandle (ok : Bool)
  | diag
  deriving Repr, DecidableEq

/-- The data members of `SqliteWrapper` (SqliteWrapper.h lines 27-31).
`m_database` is the live engine handle (`none` = no usable handle). -/
structure Conn where
  m_isOpened : Bool
  m_timeoutMs : Nat
  m_databasePath : String
  m_database : Option Nat
  deriving Repr, DecidableEq

/-- `IsReady` (SqliteWrapper.cpp lines 94-97): returns `m_isOpened`. -/
def IsReady (c : Conn) : Bool :=
  c.m_isOpened

/-- `SetTimeout` (SqliteWrapper.cpp lines 99-102): overwrite `m_timeoutMs`. -/
def SetTimeout (c : Conn) (timeoutMs : Nat) : Conn :=
  { c with m_timeoutMs := timeoutMs }

/-- `InitDatabase` (SqliteWrapper.cpp lines 17-33).  If a handle already
exists, fail.  Otherwise open (the engine's answer is `openResult`); on
failure return false leaving no handle, on success store the handle and set
`m_isOpened := true`.  The `sqlite3_a3d_busy_timeout` hint call does not
change wrapper state and is not modelled. -/
def InitDatabase (c : Conn) (openResult : Option Nat) : Bool × Conn :=
  if c.m_database ≠ none then (false, c)
  else
    match openResult with
    | none => (false, c)
    | some h => (true, { c with m_database := some h, m_isOpened := true })

/-- The two-argument constructor `SqliteWrapper(databasePath, timeoutMs)`
(SqliteWrapper.cpp lines 80-87): initialise members then call
`InitDatabase`.  The one-argument constructor is the same with
`timeoutMs = 3000` (30000 under the LINUX build flag). -/
def mkSqliteWrapper (databasePath : String) (timeoutMs : Nat)
    (openResult : Option Nat) : Conn :=
  (InitDatabase ⟨false, timeoutMs, databasePath, none⟩ openResult).2

/-- `Reconnect` (SqliteWrapper.cpp lines 35-47): under `m_dbConnectionMutex`
exclusive lock, close the current handle with `sqlite3_a3d_close_v2`, then
attempt to reopen the same path.  On failure (`openResult = none`) return
false; `m_isOpened` is not touched on either path, and no rollback statement
is ever issued.  Returns (success, new state, emitted events). -/
def Reconnect (c : Conn) (openResult : Option Nat) :
    Bool × Conn × List Event :=
  match openResult with
  | none =>
      (false, { c with m_database := none },
        [Event.lockExclusive, Event.closeHandle, Event.openHandle false,
         Event.unlockExclusive])
  | some h =>
      (true, { c with m_database := some h },
        [Event.lockExclusive, Event.closeHandle, Event.openHandle true,
         Event.unlockExclusive])

/-- `DestroyDatabase` (SqliteWrapper.cpp lines 49-64).  `inTx` is the
engine's answer to `IsInTransaction()` (autocommit off), `rollbackOk` the
outcome of the nested `RollBackTransaction()` execution, abstracted as one
`rollbackAttempt` event.  A failed rollback prints a diagnostic; destruction
then still closes the handle and clears the state.  The destructor
`~SqliteWrapper` (lines 89-92) simply calls this. -/
def DestroyDatabase (c : Conn) (inTx : Bool) (rollbackOk : Bool) :
    Bool × Conn × List Event :=
  if c.m_database = none ∨ c.m_isOpened = false then (false, c, [])
  else
    (true, { c with m_isOpened := false, m_database := none },
      (if inTx then
        Event.rollbackAttempt :: (if rollbackOk then [] else [Event.diag])
       else []) ++ [Event.closeHandle])

/-- Spec §3 Connection invariant: "the handle is non-null iff the open flag
is true". -/
def connInvariant (c : Conn) : Prop :=
  c.m_database.isSome = c.m_isOpened

instance (c : Conn) : Decidable (connInvariant c) := by
  unfold connInvariant; infer_instance

/-! ## Result collection -/

/-- Text of one engine cell: a NULL column value (`none`) becomes the empty
string (SqliteWrapper.cpp lines 110-117). -/
def cellText (cell : Option String) : String :=
  cell.getD ""

/-- `std::vector::resize(count)` on a vector of columns: truncate to `count`
entries, padding with fresh empty columns if there were fewer. -/
def listResize (xs : List (List String)) (count : Nat) : List (List String) :=
  xs.take count ++ List.replicate (count - xs.length) []

/-- `getResultsCallBack` (SqliteWrapper.cpp lines 104-120), one invocation:
`results->resize(count)` then, for each `i < count`, push `data[i]` (or `""`
for NULL) onto column `i`.  The engine passes `count = row.length`, the
number of columns of this result row. -/
def getResultsCallBack (results : List (List String))
    (row : List (Option String)) : List (List String) :=
  List.zipWith (fun col cell => col ++ [cellText cell])
    (listResize results row.length) row

/-- The column-major container produced from `rows` when every row has `c`
columns: entry `j` holds, in order, the text of cell `j` of each callback
invocation. -/
def colsOf (c : Nat) (rows : List (List (Option String))) :
    List (List String) :=
  (List.range c).map (fun j => rows.map (fun r => cellText (r.getD j none)))

/-! ## The ExecStatement retry loop -/

/-- The engine's response to one `sqlite3_a3d_exec` submission: the returned
status code and the rows delivered through the callback during it. -/
structure EngineResp where
  status : Int
  rows : List (List (Option String))

/-- External behaviour visible to one `ExecStatement` call (see module
docstring). -/
structure Env where
  engine : Nat → EngineResp
  changesVal : Nat → Int
  reconnectOpen : Nat → Option Nat
  timeoutAt : Nat → Nat

/-- State of the `while (!done)` loop of `ExecStatement` (SqliteWrapper.cpp
lines 122-210): the wrapper state, the locals `alreadyTriedReconnecting`,
`done`, `i`, the out-parameters `retValue`, `results`, `*pnUpdatedRows`,
plus instrumentation (`iter` = loop iterations run so far, ghost counters
`reconnects`, `sleeps`, and the event trace). -/
structure LoopState where
  conn : Conn
  alreadyTried : Bool
  done : Bool
  i : Nat
  retValue : Int
  results : List (List String)
  pnUpdatedRows : Option Int
  iter : Nat
  reconnects : Nat
  sleeps : Nat
  trace : List Event
  deriving Repr, DecidableEq

/-- Loop state at entry of `ExecStatement`: locals initialised as at lines
128-132, `results` as supplied by the caller. -/
def initLoopState (c : Conn) (results0 : List (List String)) : LoopState :=
  ⟨c, false, false, 0, 0, results0, none, 0, 0, 0, []⟩

/-- The guarded submission section of one loop iteration (SqliteWrapper.cpp
lines 136-162): take the guard exclusively when a row-count slot was
requested (`rc = true`), shared otherwise; run `sqlite3_a3d_exec`, folding
every callback row into `results`; if a row count was requested and the
submission succeeded, read `sqlite3_a3d_changes` before unlocking. -/
def afterSubmit (env : Env) (rc : Bool) (s : LoopState) : LoopState :=
  { s with
    results := List.foldl getResultsCallBack s.results (env.engine s.iter).rows
    retValue := (env.engine s.iter).status
    pnUpdatedRows :=
      if rc then
        (if (env.engine s.iter).status = 0 then some (env.changesVal s.iter)
         else some 0)
      else s.pnUpdatedRows
    trace := s.trace ++
      (if rc then
        [Event.lockExclusive, Event.execCall] ++
        (if (env.engine s.iter).status = 0 then [Event.changesCall] else []) ++
        [Event.unlockExclusive]
       else [Event.lockShared, Event.execCall, Event.unlockShared])
    iter := s.iter + 1 }

/-- The 15 ms backoff branch of the BUSY case (SqliteWrapper.cpp line 169). -/
def sleepStep (s : LoopState) : LoopState :=
  { s with trace := s.trace ++ [Event.sleep15], sleeps := s.sleeps + 1 }

/-- The `done = !Reconnect(); alreadyTriedReconnecting = true;` step shared
by the BUSY, IOERR and default cases (SqliteWrapper.cpp lines 177-178,
192-193, 203-204). -/
def doReconnect (env : Env) (s : LoopState) : LoopState :=
  { s with
    conn := (Reconnect s.conn (env.reconnectOpen s.reconnects)).2.1
    done := !(Reconnect s.conn (env.reconnectOpen s.reconnects)).1
    alreadyTried := true
    reconnects := s.reconnects + 1
    trace := s.trace ++ Event.reconnectAttempt ::
      (Reconnect s.conn (env.reconnectOpen s.reconnects)).2.2 }

/-- One iteration of the `while (!done)` loop (SqliteWrapper.cpp lines
133-207); identity once `done` holds.  In the BUSY case the condition is
`m_timeoutMs == 0 || retry && i++ < 10` with C++ short-circuiting: `i` is
incremented exactly when `m_timeoutMs ≠ 0` and `retry` holds, whatever the
comparison's outcome. -/
def execIter (env : Env) (retry rc : Bool) (s : LoopState) : LoopState :=
  if s.done then s
  else
    let t := env.timeoutAt s.iter
    let s1 := afterSubmit env rc s
    if s1.retValue = SQLITE_BUSY then
      if t = 0 then sleepStep s1
      else if retry then
        if s.i < 10 then sleepStep { s1 with i := s.i + 1 }
        else if s.alreadyTried then { s1 with i := s.i + 1, done := true }
        else doReconnect env { s1 with i := s.i + 1 }
      else if s.alreadyTried then { s1 with done := true }
      else doReconnect env s1
    else if s1.retValue = 0 then { s1 with done := true }
    else if s1.retValue = SQLITE_IOERR then
      if s.alreadyTried then { s1 with done := true }
      else doReconnect env s1
    else
      if s.alreadyTried then
        { s1 with trace := s1.trace ++ [Event.diag], done := true }
      else doReconnect env { s1 with trace := s1.trace ++ [Event.diag] }

/-- `n` iterations of the retry loop. -/
def execSteps (env : Env) (retry rc : Bool) (s : LoopState) : Nat → LoopState
  | 0 => s
  | n + 1 => execIter env retry rc (execSteps env retry rc s n)

/-- `ExecStatement` (SqliteWrapper.cpp lines 122-210) with `fuel` loop
iterations: fail immediately when not ready (line 125), otherwise run the
loop and report `retValue == 0` (line 209).  The result is the call's
outcome whenever `(execSteps …).done` holds within `fuel`. -/
def ExecStatement (env : Env) (c : Conn) (retry rc : Bool)
    (results0 : List (List String)) (fuel : Nat) : Bool × LoopState :=
  if IsReady c = false then (false, initLoopState c results0)
  else
    let s := execSteps env retry rc (initLoopState c results0) fuel
    (s.retValue == 0, s)

/-- Environment in which every submission returns BUSY and delivers no rows,
every reconnect open yields `rOpen`, and `m_timeoutMs` reads `t`. -/
def busyEnv (t : Nat) (rOpen : Option Nat) : Env :=
  ⟨fun _ => ⟨SQLITE_BUSY, []⟩, fun _ => 0, fun _ => rOpen, fun _ => t⟩

end A3D

/-! ## Projection and branch lemmas for the loop body -/
namespace A3D

@[simp] lemma afterSubmit_conn (env : Env) (rc : Bool) (s : LoopState) :
    (afterSubmit env rc s).conn = s.conn := rfl

@[simp] lemma afterSubmit_done (env : Env) (rc : Bool) (s : LoopState) :
    (afterSubmit env rc s).done = s.done := rfl

@[simp] lemma afterSubmit_alreadyTried (env : Env) (rc : Bool) (s : LoopState) :
    (afterSubmit env rc s).alreadyTried = s.alreadyTried := rfl

@[simp] lemma afterSubmit_i (env : Env) (rc : Bool) (s : LoopState) :
    (afterSubmit env rc s).i = s.i := rfl

@[simp] lemma afterSubmit_retValue (env : Env) (rc : Bool) (s : LoopState) :
    (afterSubmit env rc s).retValue = (env.engine s.iter).status := rfl

@[simp] lemma afterSubmit_iter (env : Env) (rc : Bool) (s : LoopState) :
    (afterSubmit env rc s).iter = s.iter + 1 := rfl

@[simp] lemma afterSubmit_reconnects (env : Env) (rc : Bool) (s : LoopState) :
    (afterSubmit env rc s).reconnects = s.reconnects := rfl

@[simp] lemma afterSubmit_sleeps (env : Env) (rc : Bool) (s : LoopState) :
    (afterSubmit env rc s).sleeps = s.sleeps := rfl

@[simp] lemma afterSubmit_results (env : Env) (rc : Bool) (s : LoopState) :
    (afterSubmit env rc s).results =
      List.foldl getResultsCallBack s.results (env.engine s.iter).rows := rfl

lemma execIter_of_done (env : Env) (retry rc : Bool) (s : LoopState)
    (h : s.done = true) : execIter env retry rc s = s := by
  unfold execIter; simp [h]

lemma execIter_success (env : Env) (retry rc : Bool) (s : LoopState)
    (h0 : s.done = false) (hs : (env.engine s.iter).status = 0) :
    execIter env retry rc s = { afterSubmit env rc s with done := true } := by
  unfold execIter
  simp [h0, hs, SQLITE_BUSY]

lemma execIter_busy_t0 (env : Env) (retry rc : Bool) (s : LoopState)
    (h0 : s.done = false) (hb : (env.engine s.iter).status = SQLITE_BUSY)
    (ht : env.timeoutAt s.iter = 0) :
    execIter env retry rc s = sleepStep (afterSubmit env rc s) := by
  unfold execIter
  simp [h0, hb, ht]

lemma execIter_busy_retry_sleep (env : Env) (rc : Bool) (s : LoopState)
    (h0 : s.done = false) (hb : (env.engine s.iter).status = SQLITE_BUSY)
    (ht : env.timeoutAt s.iter ≠ 0) (hi : s.i < 10) :
    execIter env true rc s = sleepStep { afterSubmit env rc s with i := s.i + 1 } := by
  unfold execIter
  simp [h0, hb, ht, hi]

lemma execIter_busy_retry_giveup (env : Env) (rc : Bool) (s : LoopState)
    (h0 : s.done = false) (hb : (env.engine s.iter).status = SQLITE_BUSY)
    (ht : env.timeoutAt s.iter ≠ 0) (hi : ¬ s.i < 10) (ha : s.alreadyTried = true) :
    execIter env true rc s = { afterSubmit env rc s with i := s.i + 1, done := true } := by
  unfold execIter
  simp [h0, hb, ht, hi, ha]

lemma execIter_busy_retry_reconnect (env : Env) (rc : Bool) (s : LoopState)
    (h0 : s.done = false) (hb : (env.engine s.iter).status = SQLITE_BUSY)
    (ht : env.timeoutAt s.iter ≠ 0) (hi : ¬ s.i < 10) (ha : s.alreadyTried = false) :
    execIter env true rc s = doReconnect env { afterSubmit env rc s with i := s.i + 1 } := by
  unfold execIter
  simp [h0, hb, ht, hi, ha]

lemma execIter_busy_noretry_giveup (env : Env) (rc : Bool) (s : LoopState)
    (h0 : s.done = false) (hb : (env.engine s.iter).status = SQLITE_BUSY)
    (ht : env.timeoutAt s.iter ≠ 0) (ha : s.alreadyTried = true) :
    execIter env false rc s = { afterSubmit env rc s with done := true } := by
  unfold execIter
  simp [h0, hb, ht, ha]

lemma execIter_busy_noretry_reconnect (env : Env) (rc : Bool) (s : LoopState)
    (h0 : s.done = false) (hb : (env.engine s.iter).status = SQLITE_BUSY)
    (ht : env.timeoutAt s.iter ≠ 0) (ha : s.alreadyTried = false) :
    execIter env false rc s = doReconnect env (afterSubmit env rc s) := by
  unfold execIter
  simp [h0, hb, ht, ha]

end A3D

namespace A3D

@[simp] lemma sleepStep_conn (s : LoopState) : (sleepStep s).conn = s.conn := rfl
@[simp] lemma sleepStep_done (s : LoopState) : (sleepStep s).done = s.done := rfl
@[simp] lemma sleepStep_alreadyTried (s : LoopState) :
    (sleepStep s).alreadyTried = s.alreadyTried := rfl
@[simp] lemma sleepStep_i (s : LoopState) : (sleepStep s).i = s.i := rfl
@[simp] lemma sleepStep_retValue (s : LoopState) : (sleepStep s).retValue = s.retValue := rfl
@[simp] lemma sleepStep_iter (s : LoopState) : (sleepStep s).iter = s.iter := rfl
@[simp] lemma sleepStep_reconnects (s : LoopState) :
    (sleepStep s).reconnects = s.reconnects := rfl
@[simp] lemma sleepStep_sleeps (s : LoopState) : (sleepStep s).sleeps = s.sleeps + 1 := rfl
@[simp] lemma sleepStep_results (s : LoopState) : (sleepStep s).results = s.results := rfl

@[simp] lemma doReconnect_conn (env : Env) (s : LoopState) :
    (doReconnect env s).conn = (Reconnect s.conn (env.reconnectOpen s.reconnects)).2.1 := rfl
@[simp] lemma doReconnect_done (env : Env) (s : LoopState) :
    (doReconnect env s).done = !(Reconnect s.conn (env.reconnectOpen s.reconnects)).1 := rfl
@[simp] lemma doReconnect_alreadyTried (env : Env) (s : LoopState) :
    (doReconnect env s).alreadyTried = true := rfl
@[simp] lemma doReconnect_i (env : Env) (s : LoopState) : (doReconnect env s).i = s.i := rfl
@[simp] lemma doReconnect_retValue (env : Env) (s : LoopState) :
    (doReconnect env s).retValue = s.retValue := rfl
@[simp] lemma doReconnect_iter (env : Env) (s : LoopState) :
    (doReconnect env s).iter = s.iter := rfl
@[simp] lemma doReconnect_reconnects (env : Env) (s : LoopState) :
    (doReconnect env s).reconnects = s.reconnects + 1 := rfl
@[simp] lemma doReconnect_sleeps (env : Env) (s : LoopState) :
    (doReconnect env s).sleeps = s.sleeps := rfl
@[simp] lemma doReconnect_results (env : Env) (s : LoopState) :
    (doReconnect env s).results = s.results := rfl

lemma execIter_ioerr_giveup (env : Env) (retry rc : Bool) (s : LoopState)
    (h0 : s.done = false) (hs : (env.engine s.iter).status = SQLITE_IOERR)
    (ha : s.alreadyTried = true) :
    execIter env retry rc s = { afterSubmit env rc s with done := true } := by
  unfold execIter
  simp [h0, hs, ha, SQLITE_IOERR, SQLITE_BUSY]

lemma execIter_ioerr_reconnect (env : Env) (retry rc : Bool) (s : LoopState)
    (h0 : s.done = false) (hs : (env.engine s.iter).status = SQLITE_IOERR)
    (ha : s.alreadyTried = false) :
    execIter env retry rc s = doReconnect env (afterSubmit env rc s) := by
  unfold execIter
  simp [h0, hs, ha, SQLITE_IOERR, SQLITE_BUSY]

lemma execIter_other_giveup (env : Env) (retry rc : Bool) (s : LoopState)
    (h0 : s.done = false) (hb : (env.engine s.iter).status ≠ SQLITE_BUSY)
    (hz : (env.engine s.iter).status ≠ 0) (hio : (env.engine s.iter).status ≠ SQLITE_IOERR)
    (ha : s.alreadyTried = true) :
    execIter env retry rc s =
      { afterSubmit env rc s with
        trace := (afterSubmit env rc s).trace ++ [Event.diag], done := true } := by
  unfold execIter
  simp [h0, hb, hz, hio, ha]

lemma execIter_other_reconnect (env : Env) (retry rc : Bool) (s : LoopState)
    (h0 : s.done = false) (hb : (env.engine s.iter).status ≠ SQLITE_BUSY)
    (hz : (env.engine s.iter).status ≠ 0) (hio : (env.engine s.iter).status ≠ SQLITE_IOERR)
    (ha : s.alreadyTried = false) :
    execIter env retry rc s =
      doReconnect env
        { afterSubmit env rc s with
          trace := (afterSubmit env rc s).trace ++ [Event.diag] } := by
  unfold execIter
  simp [h0, hb, hz, hio, ha]

/-- Within one live loop iteration, `results` is only ever extended by the
callback fold of this submission; no branch resets it. -/
lemma execIter_results (env : Env) (retry rc : Bool) (s : LoopState)
    (h0 : s.done = false) :
    (execIter env retry rc s).results =
      List.foldl getResultsCallBack s.results (env.engine s.iter).rows := by
  by_cases hb : (env.engine s.iter).status = SQLITE_BUSY
  · by_cases ht : env.timeoutAt s.iter = 0
    · rw [execIter_busy_t0 env retry rc s h0 hb ht]; simp
    · cases retry with
      | false =>
        cases ha : s.alreadyTried with
        | false => rw [execIter_busy_noretry_reconnect env rc s h0 hb ht ha]; simp
        | true => rw [execIter_busy_noretry_giveup env rc s h0 hb ht ha]; simp
      | true =>
        by_cases hi : s.i < 10
        · rw [execIter_busy_retry_sleep env rc s h0 hb ht hi]; simp
        · cases ha : s.alreadyTried with
          | false => rw [execIter_busy_retry_reconnect env rc s h0 hb ht hi ha]; simp
          | true => rw [execIter_busy_retry_giveup env rc s h0 hb ht hi ha]; simp
  · by_cases hz : (env.engine s.iter).status = 0
    · rw [execIter_success env retry rc s h0 hz]; simp
    · by_cases hio : (env.engine s.iter).status = SQLITE_IOERR
      · cases ha : s.alreadyTried with
        | false => rw [execIter_ioerr_reconnect env retry rc s h0 hio ha]; simp
        | true => rw [execIter_ioerr_giveup env retry rc s h0 hio ha]; simp
      · cases ha : s.alreadyTried with
        | false => rw [execIter_other_reconnect env retry rc s h0 hb hz hio ha]; simp
        | true => rw [execIter_other_giveup env retry rc s h0 hb hz hio ha]; simp

end A3D
namespace A3D

/-! ## Structure of the collected result container -/

lemma getD_of_lt {α : Type} (l : List α) (d : α) (j : Nat) (h : j < l.length) :
    l.getD j d = l[j] := by
  rw [List.getD_eq_getElem?_getD, List.getElem?_eq_getElem h]
  rfl

lemma gcb_nil_cons (cell : Option String) (row : List (Option String)) :
    getResultsCallBack [] (cell :: row) =
      [cellText cell] :: getResultsCallBack [] row := by
  simp [getResultsCallBack, listResize, List.replicate_succ]

lemma gcb_cons_cons (col : List String) (results : List (List String))
    (cell : Option String) (row : List (Option String)) :
    getResultsCallBack (col :: results) (cell :: row) =
      (col ++ [cellText cell]) :: getResultsCallBack results row := by
  simp [getResultsCallBack, listResize, Nat.succ_sub_succ]

lemma getResultsCallBack_length (results : List (List String))
    (row : List (Option String)) :
    (getResultsCallBack results row).length = row.length := by
  simp [getResultsCallBack, listResize]
  omega

lemma gcb_getD (results : List (List String)) (row : List (Option String))
    (j : Nat) (hj : j < row.length) :
    (getResultsCallBack results row).getD j [] =
      results.getD j [] ++ [cellText (row.getD j none)] := by
  induction row generalizing results j with
  | nil => exact absurd hj (by simp)
  | cons cell row ih =>
    cases results with
    | nil =>
      rw [gcb_nil_cons]
      cases j with
      | zero => simp
      | succ j => simpa using ih [] j (by simpa using hj)
    | cons col results =>
      rw [gcb_cons_cons]
      cases j with
      | zero => simp
      | succ j => simpa using ih results j (by simpa using hj)

lemma foldl_gcb_getD (c : Nat) (rows : List (List (Option String))) :
    ∀ acc : List (List String), (∀ r ∈ rows, r.length = c) → ∀ j, j < c →
    (List.foldl getResultsCallBack acc rows).getD j [] =
      acc.getD j [] ++ rows.map (fun r => cellText (r.getD j none)) := by
  induction rows with
  | nil => intro acc _ j _; simp
  | cons r rest ih =>
    intro acc hall j hj
    have hr : r.length = c := hall r (List.mem_cons_self r rest)
    rw [List.foldl_cons,
      ih (getResultsCallBack acc r) (fun x hx => hall x (List.mem_cons_of_mem r hx)) j hj,
      gcb_getD acc r j (by rw [hr]; exact hj)]
    simp

lemma foldl_gcb_length (c : Nat) (rows : List (List (Option String))) :
    ∀ acc : List (List String), rows ≠ [] → (∀ r ∈ rows, r.length = c) →
    (List.foldl getResultsCallBack acc rows).length = c := by
  induction rows with
  | nil => intro acc h _; exact absurd rfl h
  | cons r rest ih =>
    intro acc _ hall
    rw [List.foldl_cons]
    rcases eq_or_ne rest [] with he | he
    · subst he
      rw [List.foldl_nil, getResultsCallBack_length]
      exact hall r (List.mem_cons_self r [])
    · exact ih (getResultsCallBack acc r) he
        (fun x hx => hall x (List.mem_cons_of_mem r hx))

lemma foldl_gcb_eq_colsOf (c : Nat) (rows : List (List (Option String)))
    (hne : rows ≠ []) (hall : ∀ r ∈ rows, r.length = c) :
    List.foldl getResultsCallBack [] rows = colsOf c rows := by
  have hlen : (List.foldl getResultsCallBack [] rows).length = c :=
    foldl_gcb_length c rows [] hne hall
  have hclen : (colsOf c rows).length = c := by simp [colsOf]
  apply List.ext_getElem (by rw [hlen, hclen])
  intro n h1 h2
  rw [← getD_of_lt _ [] n h1, foldl_gcb_getD c rows [] hall n (by rwa [hlen] at h1)]
  simp [colsOf]

end A3D
namespace A3D

/-! ## Concrete connections and environments used by witnesses and
counterexamples -/

/-- A connection whose construction succeeded: flag set, live handle. -/
def connOK : Conn := ⟨true, 3000, "test.db", some 1⟩

/-- Engine whose single statement succeeds at once, delivering one row of two
non-NULL columns. -/
def envC1 : Env :=
  ⟨fun _ => ⟨0, [[some "a", some "b"]]⟩, fun _ => 0, fun _ => some 2,
   fun _ => 3000⟩

/-- Engine whose first submission fails with SQLITE_IOERR after having
delivered one row, and whose resubmission after the reconnect succeeds with
one more row. -/
def envC10 : Env :=
  ⟨fun n => if n = 0 then ⟨SQLITE_IOERR, [[some "a"]]⟩ else ⟨0, [[some "b"]]⟩,
   fun _ => 0, fun _ => some 2, fun _ => 3000⟩

/-! ## C1 -/

/-- Claim C1 as stated is false: a successful execution with a single
row-callback invocation reporting 2 columns produces a container with 2
entries (one per column, as documented in SqliteWrapper.h lines 61-62), not
one row-entry of 2 cells: the entry count is the column count, not the
invocation count, and entry 0 has 1 cell, not the reported 2. -/
theorem C1_counterexample :
    (execSteps envC1 true false (initLoopState connOK []) 1).done = true ∧
    (execSteps envC1 true false (initLoopState connOK []) 1).retValue = 0 ∧
    (execSteps envC1 true false (initLoopState connOK []) 1).results =
      [["a"], ["b"]] ∧
    ¬ (execSteps envC1 true false (initLoopState connOK []) 1).results.length
        = 1 ∧
    ¬ ((execSteps envC1 true false (initLoopState connOK []) 1).results.getD
        0 []).length = 2 := by
  refine ⟨by decide, by decide, by decide, by decide, by decide⟩

/-- Claim C1 (amended): for a successful execution whose callback invocations
all report the same column count `c`, the tabular result collected into a
fresh container is column-major: it has exactly one entry per column (`c`
entries), entry `j` holds one text cell per callback invocation, in
invocation order, and an engine NULL value appears as an empty-text cell at
its position (`cellText none = ""`), never as a missing entry. -/
theorem C1_columnMajor (c : Nat) (rows : List (List (Option String)))
    (hne : rows ≠ []) (hall : ∀ r ∈ rows, r.length = c)
    (env : Env) (retry rc : Bool) (conn : Conn)
    (henv : env.engine 0 = ⟨0, rows⟩) :
    (execSteps env retry rc (initLoopState conn []) 1).done = true ∧
    (execSteps env retry rc (initLoopState conn []) 1).retValue = 0 ∧
    (execSteps env retry rc (initLoopState conn []) 1).results =
      colsOf c rows ∧
    (execSteps env retry rc (initLoopState conn []) 1).results.length = c ∧
    (∀ j, j < c →
      (execSteps env retry rc (initLoopState conn []) 1).results.getD j [] =
        rows.map (fun r => cellText (r.getD j none))) := by
  have hstep : execSteps env retry rc (initLoopState conn []) 1 =
      { afterSubmit env rc (initLoopState conn []) with done := true } := by
    show execIter env retry rc (initLoopState conn []) = _
    exact execIter_success env retry rc _ rfl (by rw [show
      (initLoopState conn []).iter = 0 from rfl, henv])
  have hres : List.foldl getResultsCallBack [] rows = colsOf c rows :=
    foldl_gcb_eq_colsOf c rows hne hall
  rw [hstep]
  refine ⟨rfl, ?_, ?_, ?_, ?_⟩
  · show (env.engine (initLoopState conn []).iter).status = 0
    rw [show (initLoopState conn []).iter = 0 from rfl, henv]
  · show List.foldl getResultsCallBack (initLoopState conn []).results
      (env.engine (initLoopState conn []).iter).rows = colsOf c rows
    rw [show (initLoopState conn []).iter = 0 from rfl, henv]
    exact hres
  · show (List.foldl getResultsCallBack (initLoopState conn []).results
      (env.engine (initLoopState conn []).iter).rows).length = c
    rw [show (initLoopState conn []).iter = 0 from rfl, henv]
    show (List.foldl getResultsCallBack [] rows).length = c
    rw [hres]
    simp [colsOf]
  · intro j hj
    show (List.foldl getResultsCallBack (initLoopState conn []).results
      (env.engine (initLoopState conn []).iter).rows).getD j [] = _
    rw [show (initLoopState conn []).iter = 0 from rfl, henv]
    show (List.foldl getResultsCallBack [] rows).getD j [] = _
    rw [hres]
    rw [getD_of_lt _ _ _ (by simpa [colsOf] using hj)]
    simp [colsOf]

/-- Witness for `C1_columnMajor` at `c = 2`, a NULL in the second invocation's
first column. -/
theorem C1_columnMajor_witness :
    (execSteps (⟨fun _ => ⟨0, [[some "x", some "y"], [none, some "z"]]⟩,
        fun _ => 0, fun _ => some 2, fun _ => 3000⟩ : Env) true false
      (initLoopState connOK []) 1).done = true ∧
    (execSteps (⟨fun _ => ⟨0, [[some "x", some "y"], [none, some "z"]]⟩,
        fun _ => 0, fun _ => some 2, fun _ => 3000⟩ : Env) true false
      (initLoopState connOK []) 1).retValue = 0 ∧
    (execSteps (⟨fun _ => ⟨0, [[some "x", some "y"], [none, some "z"]]⟩,
        fun _ => 0, fun _ => some 2, fun _ => 3000⟩ : Env) true false
      (initLoopState connOK []) 1).results =
      colsOf 2 [[some "x", some "y"], [none, some "z"]] ∧
    (execSteps (⟨fun _ => ⟨0, [[some "x", some "y"], [none, some "z"]]⟩,
        fun _ => 0, fun _ => some 2, fun _ => 3000⟩ : Env) true false
      (initLoopState connOK []) 1).results.length = 2 ∧
    (∀ j, j < 2 →
      (execSteps (⟨fun _ => ⟨0, [[some "x", some "y"], [none, some "z"]]⟩,
          fun _ => 0, fun _ => some 2, fun _ => 3000⟩ : Env) true false
        (initLoopState connOK []) 1).results.getD j [] =
        [[some "x", some "y"], [none, some "z"]].map
          (fun r => cellText (r.getD j none))) :=
  C1_columnMajor 2 [[some "x", some "y"], [none, some "z"]] (by decide)
    (by decide) _ true false connOK rfl

end A3D

namespace A3D

/-! ## C2 -/

/-- The wrapper state changes inside one loop iteration only via
`Reconnect` (with the open outcome scheduled by the environment), or not at
all. -/
lemma execIter_conn (env : Env) (retry rc : Bool) (s : LoopState) :
    (execIter env retry rc s).conn = s.conn ∨
    (execIter env retry rc s).conn =
      (Reconnect s.conn (env.reconnectOpen s.reconnects)).2.1 := by
  by_cases h0 : s.done = true
  · rw [execIter_of_done env retry rc s h0]; exact Or.inl rfl
  · rw [Bool.not_eq_true] at h0
    by_cases hb : (env.engine s.iter).status = SQLITE_BUSY
    · by_cases ht : env.timeoutAt s.iter = 0
      · rw [execIter_busy_t0 env retry rc s h0 hb ht]; exact Or.inl rfl
      · cases retry with
        | false =>
          cases ha : s.alreadyTried with
          | false =>
            rw [execIter_busy_noretry_reconnect env rc s h0 hb ht ha]
            exact Or.inr (by simp)
          | true =>
            rw [execIter_busy_noretry_giveup env rc s h0 hb ht ha]
            exact Or.inl rfl
        | true =>
          by_cases hi : s.i < 10
          · rw [execIter_busy_retry_sleep env rc s h0 hb ht hi]; exact Or.inl rfl
          · cases ha : s.alreadyTried with
            | false =>
              rw [execIter_busy_retry_reconnect env rc s h0 hb ht hi ha]
              exact Or.inr (by simp)
            | true =>
              rw [execIter_busy_retry_giveup env rc s h0 hb ht hi ha]
              exact Or.inl rfl
    · by_cases hz : (env.engine s.iter).status = 0
      · rw [execIter_success env retry rc s h0 hz]; exact Or.inl rfl
      · by_cases hio : (env.engine s.iter).status = SQLITE_IOERR
        · cases ha : s.alreadyTried with
          | false =>
            rw [execIter_ioerr_reconnect env retry rc s h0 hio ha]
            exact Or.inr (by simp)
          | true =>
            rw [execIter_ioerr_giveup env retry rc s h0 hio ha]
            exact Or.inl rfl
        · cases ha : s.alreadyTried with
          | false =>
            rw [execIter_other_reconnect env retry rc s h0 hb hz hio ha]
            exact Or.inr (by simp)
          | true =>
            rw [execIter_other_giveup env retry rc s h0 hb hz hio ha]
            exact Or.inl rfl

/-- When every reconnect open succeeds, a live wrapper state (flag set, live
handle) stays live across one loop iteration. -/
lemma execIter_conn_live (env : Env) (retry rc : Bool) (s : LoopState)
    (hAll : ∀ m, (env.reconnectOpen m).isSome = true)
    (hOp : s.conn.m_isOpened = true) (hDb : s.conn.m_database.isSome = true) :
    (execIter env retry rc s).conn.m_isOpened = true ∧
    (execIter env retry rc s).conn.m_database.isSome = true := by
  rcases execIter_conn env retry rc s with h | h
  · rw [h]; exact ⟨hOp, hDb⟩
  · rw [h]
    rcases ho : env.reconnectOpen s.reconnects with _ | hdl
    · have hc := hAll s.reconnects
      rw [ho] at hc
      simp at hc
    · simp [Reconnect, ho, hOp]

/-- When every reconnect open succeeds, a live wrapper state stays live along
the whole retry loop. -/
lemma execSteps_conn_live (env : Env) (retry rc : Bool) (conn : Conn)
    (rs0 : List (List String))
    (hAll : ∀ m, (env.reconnectOpen m).isSome = true)
    (hOp : conn.m_isOpened = true) (hDb : conn.m_database.isSome = true) :
    ∀ n,
      (execSteps env retry rc (initLoopState conn rs0) n).conn.m_isOpened
        = true ∧
      (execSteps env retry rc (initLoopState conn rs0) n).conn.m_database.isSome
        = true := by
  intro n
  induction n with
  | zero => exact ⟨hOp, hDb⟩
  | succ n ih =>
    exact execIter_conn_live env retry rc _ hAll ih.1 ih.2

/-- Claim C2 as stated is false on the failed-reconnect path: on a freshly
constructed, open connection, a `Reconnect` whose replacement open fails
closes the handle but leaves `m_isOpened` true, so the handle/flag invariant
no longer holds afterwards. -/
theorem C2_counterexample :
    connInvariant connOK ∧ (Reconnect connOK none).1 = false ∧
    ¬ connInvariant (Reconnect connOK none).2.1 := by
  refine ⟨by decide, by decide, by decide⟩

/-- Claim C2 (amended): the invariant "the handle is non-null iff the open
flag is true" holds after construction (both outcomes of the engine open)
and is preserved by `InitDatabase`, `DestroyDatabase`, by `Reconnect` on an
open connection when its replacement open succeeds, and by every
`ExecStatement` retry loop all of whose reconnect opens succeed.  (By
`C2_counterexample` it is not preserved when a reconnect open fails.) -/
theorem C2_invariant :
    (∀ path t openRes, connInvariant (mkSqliteWrapper path t openRes)) ∧
    (∀ c openRes, connInvariant c →
      connInvariant (InitDatabase c openRes).2) ∧
    (∀ c inTx rbOk, connInvariant c →
      connInvariant (DestroyDatabase c inTx rbOk).2.1) ∧
    (∀ c hdl, c.m_isOpened = true →
      connInvariant (Reconnect c (some hdl)).2.1) ∧
    (∀ env retry rc conn rs0 n,
      conn.m_isOpened = true → conn.m_database.isSome = true →
      (∀ m, (env.reconnectOpen m).isSome = true) →
      connInvariant
        (execSteps env retry rc (initLoopState conn rs0) n).conn) := by
  refine ⟨?_, ?_, ?_, ?_, ?_⟩
  · intro path t openRes
    cases openRes <;> simp [mkSqliteWrapper, InitDatabase, connInvariant]
  · intro c openRes h
    unfold InitDatabase
    split
    · exact h
    · cases openRes
      · exact h
      · simp [connInvariant]
  · intro c inTx rbOk h
    unfold DestroyDatabase
    split
    · exact h
    · simp [connInvariant]
  · intro c hdl hOp
    simp [Reconnect, connInvariant, hOp]
  · intro env retry rc conn rs0 n hOp hDb hAll
    have h := execSteps_conn_live env retry rc conn rs0 hAll hOp hDb n
    unfold connInvariant
    rw [h.1, h.2]

/-- Witness for `C2_invariant`: a concrete open connection, a concrete
always-succeeding environment, three loop iterations. -/
theorem C2_invariant_witness :
    connInvariant (InitDatabase connOK none).2 ∧
    connInvariant (DestroyDatabase connOK true false).2.1 ∧
    connInvariant (Reconnect connOK (some 2)).2.1 ∧
    connInvariant
      (execSteps (busyEnv 3000 (some 2)) true false
        (initLoopState connOK []) 3).conn :=
  ⟨C2_invariant.2.1 connOK none (by decide),
   C2_invariant.2.2.1 connOK true false (by decide),
   C2_invariant.2.2.2.1 connOK 2 rfl,
   C2_invariant.2.2.2.2 (busyEnv 3000 (some 2)) true false connOK [] 3 rfl rfl
     (fun m => rfl)⟩

/-! ## C3 -/

/-- Claim C3 as stated is false: invoking `Reconnect` on an open connection
(whatever the engine's transaction state, which `Reconnect` never consults)
emits no rollback attempt at all, although it does close and discard the old
handle. -/
theorem C3_counterexample :
    Event.rollbackAttempt ∉ (Reconnect connOK (some 2)).2.2 ∧
    Event.closeHandle ∈ (Reconnect connOK (some 2)).2.2 := by
  refine ⟨by decide, by decide⟩

/-- Claim C3 (amended): `Reconnect` never attempts a rollback before (or
after) closing the old engine handle; it closes and reopens directly.  The
rollback-before-release step exists only in `DestroyDatabase`. -/
theorem C3_reconnectNoRollback (c : Conn) (openRes : Option Nat) :
    Event.rollbackAttempt ∉ (Reconnect c openRes).2.2 ∧
    Event.closeHandle ∈ (Reconnect c openRes).2.2 := by
  cases openRes <;> simp [Reconnect]

/-! ## C8 -/

/-- Claim C8 (confirmed): destroying an open connection with a live handle
while a transaction is active first attempts a rollback, then (on rollback
failure) emits a diagnostic, and in every case completes destruction: the
engine handle is closed and released and the connection is marked
not-ready.  The destructor `~SqliteWrapper` delegates to `DestroyDatabase`
(SqliteWrapper.cpp lines 89-92). -/
theorem C8_destroyRollback (c : Conn) (hdl : Nat) (rbOk : Bool)
    (hdb : c.m_database = some hdl) (hop : c.m_isOpened = true) :
    (DestroyDatabase c true rbOk).1 = true ∧
    (DestroyDatabase c true rbOk).2.1.m_isOpened = false ∧
    (DestroyDatabase c true rbOk).2.1.m_database = none ∧
    (DestroyDatabase c true rbOk).2.2 =
      Event.rollbackAttempt ::
        ((if rbOk then [] else [Event.diag]) ++ [Event.closeHandle]) := by
  unfold DestroyDatabase
  rw [if_neg (by simp [hdb, hop])]
  simp

/-- Witness for `C8_destroyRollback`: destroying `connOK` in a transaction
whose rollback fails; the diagnostic appears between the rollback attempt
and the close. -/
theorem C8_destroyRollback_witness :
    (DestroyDatabase connOK true false).1 = true ∧
    (DestroyDatabase connOK true false).2.1.m_isOpened = false ∧
    (DestroyDatabase connOK true false).2.1.m_database = none ∧
    (DestroyDatabase connOK true false).2.2 =
      Event.rollbackAttempt ::
        ((if false then [] else [Event.diag]) ++ [Event.closeHandle]) :=
  C8_destroyRollback connOK 1 false rfl rfl

/-! ## C10 -/

/-- Claim C10 (confirmed): within one `ExecStatement` call the caller's
result container is never cleared between retry-loop iterations — each live
iteration only folds this submission's callback rows on top of the existing
contents — so a call whose first submission fails after delivering data and
whose retried submission then succeeds returns a container holding data from
both submissions: here "a" from the failed SQLITE_IOERR attempt followed by
"b" from the successful retry, in the same column entry. -/
theorem C10_accumulates :
    ((execSteps envC10 true false (initLoopState connOK []) 2).done = true ∧
     (execSteps envC10 true false (initLoopState connOK []) 2).retValue = 0 ∧
     (execSteps envC10 true false (initLoopState connOK []) 2).results =
       [["a", "b"]]) ∧
    (∀ (env : Env) (retry rc : Bool) (s : LoopState), s.done = false →
      (execIter env retry rc s).results =
        List.foldl getResultsCallBack s.results (env.engine s.iter).rows) := by
  exact ⟨⟨by decide, by decide, by decide⟩,
    fun env retry rc s h => execIter_results env retry rc s h⟩

/-- Witness for the universally quantified part of `C10_accumulates`. -/
theorem C10_accumulates_witness :
    (execIter envC10 true false (initLoopState connOK [])).results =
      List.foldl getResultsCallBack (initLoopState connOK []).results
        (envC10.engine (initLoopState connOK []).iter).rows :=
  C10_accumulates.2 envC10 true false (initLoopState connOK []) rfl

end A3D
namespace A3D

/-! ## C4, C5, C6: the BUSY retry/reconnect policy -/

/-- A connection on which `SetTimeout(0)` (unlimited retries) was called. -/
def connT0 : Conn := SetTimeout connOK 0

/-- Against an always-BUSY engine with retries enabled and a non-zero
budget, the first ten loop iterations all take the 15 ms backoff branch:
after `k ≤ 10` iterations the loop is still running with busy counter
`i = k`, no reconnect attempted, `k` sleeps. -/
lemma busy_run_le10 (t : Nat) (ht : t ≠ 0) (rOpen : Option Nat)
    (conn : Conn) (rs0 : List (List String)) (rc : Bool) :
    ∀ k, k ≤ 10 →
      (execSteps (busyEnv t rOpen) true rc (initLoopState conn rs0) k).done
        = false ∧
      (execSteps (busyEnv t rOpen) true rc (initLoopState conn rs0) k).i
        = k ∧
      (execSteps (busyEnv t rOpen) true rc
        (initLoopState conn rs0) k).alreadyTried = false ∧
      (execSteps (busyEnv t rOpen) true rc
        (initLoopState conn rs0) k).reconnects = 0 ∧
      (execSteps (busyEnv t rOpen) true rc (initLoopState conn rs0) k).sleeps
        = k := by
  intro k
  induction k with
  | zero => intro _; exact ⟨rfl, rfl, rfl, rfl, rfl⟩
  | succ k ih =>
    intro hk
    obtain ⟨hd, hi, ha, hr, hs⟩ := ih (by omega)
    have hstep : execSteps (busyEnv t rOpen) true rc
        (initLoopState conn rs0) (k + 1) =
        sleepStep
          { afterSubmit (busyEnv t rOpen) rc
              (execSteps (busyEnv t rOpen) true rc (initLoopState conn rs0) k)
            with
            i := (execSteps (busyEnv t rOpen) true rc
              (initLoopState conn rs0) k).i + 1 } := by
      show execIter (busyEnv t rOpen) true rc _ = _
      exact execIter_busy_retry_sleep (busyEnv t rOpen) rc _ hd rfl ht
        (by rw [hi]; omega)
    rw [hstep]
    refine ⟨?_, ?_, ?_, ?_, ?_⟩ <;> simp [hd, hi, ha, hr, hs]

/-- Claim C4 (confirmed): with retries enabled and a non-zero finite budget,
against an engine that returns BUSY on every submission (also after the
reconnect), the call sleeps through the ten local backoff attempts, then
attempts exactly one `Reconnect`, and terminates (by iteration 12 at the
latest) reporting failure with `retValue = SQLITE_BUSY` — whether or not
the reconnect open succeeds. -/
theorem C4_oneReconnect (t : Nat) (ht : t ≠ 0) (rOpen : Option Nat)
    (conn : Conn) (rs0 : List (List String)) (rc : Bool) :
    (execSteps (busyEnv t rOpen) true rc (initLoopState conn rs0) 12).done
      = true ∧
    (execSteps (busyEnv t rOpen) true rc
      (initLoopState conn rs0) 12).reconnects = 1 ∧
    (execSteps (busyEnv t rOpen) true rc (initLoopState conn rs0) 12).retValue
      = SQLITE_BUSY ∧
    (conn.m_isOpened = true →
      (ExecStatement (busyEnv t rOpen) conn true rc rs0 12).1 = false) := by
  obtain ⟨hd, hi, ha, hr, hs⟩ :=
    busy_run_le10 t ht rOpen conn rs0 rc 10 (le_refl 10)
  have h11 : execSteps (busyEnv t rOpen) true rc (initLoopState conn rs0) 11 =
      doReconnect (busyEnv t rOpen)
        { afterSubmit (busyEnv t rOpen) rc
            (execSteps (busyEnv t rOpen) true rc (initLoopState conn rs0) 10)
          with
          i := (execSteps (busyEnv t rOpen) true rc
            (initLoopState conn rs0) 10).i + 1 } := by
    show execIter (busyEnv t rOpen) true rc _ = _
    exact execIter_busy_retry_reconnect (busyEnv t rOpen) rc _ hd rfl ht
      (by rw [hi]; omega) ha
  have main :
      (execSteps (busyEnv t rOpen) true rc (initLoopState conn rs0) 12).done
        = true ∧
      (execSteps (busyEnv t rOpen) true rc
        (initLoopState conn rs0) 12).reconnects = 1 ∧
      (execSteps (busyEnv t rOpen) true rc
        (initLoopState conn rs0) 12).retValue = SQLITE_BUSY := by
    cases rOpen with
    | none =>
      have hdone11 : (execSteps (busyEnv (t) none) true rc
          (initLoopState conn rs0) 11).done = true := by
        rw [h11]; simp [Reconnect, busyEnv]
      have h12 : execSteps (busyEnv t none) true rc
          (initLoopState conn rs0) 12 =
          execSteps (busyEnv t none) true rc (initLoopState conn rs0) 11 := by
        show execIter (busyEnv t none) true rc _ = _
        exact execIter_of_done _ true rc _ hdone11
      rw [h12, h11]
      refine ⟨by simp [Reconnect, busyEnv], by simp [hr], by simp [Reconnect, busyEnv]⟩
    | some hdl =>
      have hdone11 : (execSteps (busyEnv t (some hdl)) true rc
          (initLoopState conn rs0) 11).done = false := by
        rw [h11]; simp [Reconnect, busyEnv]
      have halready11 : (execSteps (busyEnv t (some hdl)) true rc
          (initLoopState conn rs0) 11).alreadyTried = true := by
        rw [h11]; simp
      have h12 : execSteps (busyEnv t (some hdl)) true rc
          (initLoopState conn rs0) 12 =
          { afterSubmit (busyEnv t (some hdl)) rc
              (execSteps (busyEnv t (some hdl)) true rc
                (initLoopState conn rs0) 11)
            with
            i := (execSteps (busyEnv t (some hdl)) true rc
              (initLoopState conn rs0) 11).i + 1,
            done := true } := by
        show execIter (busyEnv t (some hdl)) true rc _ = _
        exact execIter_busy_retry_giveup (busyEnv t (some hdl)) rc _ hdone11
          rfl ht (by rw [h11]; simp [hi]) halready11
      rw [h12]
      refine ⟨rfl, ?_, rfl⟩
      rw [h11]
      simp [hr]
  refine ⟨main.1, main.2.1, main.2.2, ?_⟩
  intro hop
  unfold ExecStatement
  rw [if_neg (by simp [IsReady, hop])]
  simp [main.2.2, SQLITE_BUSY]

/-- Witness for `C4_oneReconnect`: budget 3000 ms, reconnect open
succeeding, no row-count slot. -/
theorem C4_oneReconnect_witness :
    (execSteps (busyEnv 3000 (some 2)) true false
      (initLoopState connOK []) 12).done = true ∧
    (execSteps (busyEnv 3000 (some 2)) true false
      (initLoopState connOK []) 12).reconnects = 1 ∧
    (execSteps (busyEnv 3000 (some 2)) true false
      (initLoopState connOK []) 12).retValue = SQLITE_BUSY ∧
    (ExecStatement (busyEnv 3000 (some 2)) connOK true false [] 12).1
      = false :=
  ⟨(C4_oneReconnect 3000 (by decide) (some 2) connOK [] false).1,
   (C4_oneReconnect 3000 (by decide) (some 2) connOK [] false).2.1,
   (C4_oneReconnect 3000 (by decide) (some 2) connOK [] false).2.2.1,
   (C4_oneReconnect 3000 (by decide) (some 2) connOK [] false).2.2.2 rfl⟩

end A3D
namespace A3D

/-- With budget 0 and an engine that returns BUSY on every submission, every
iteration takes the local backoff branch and the loop never sets `done`
(the busy counter is not even incremented: `retry && i++ < 10` is
short-circuited away). -/
lemma c5_nonterm_aux :
    ∀ n, (execSteps (busyEnv 0 (some 2)) false false
      (initLoopState connT0 []) n).done = false := by
  intro n
  induction n with
  | zero => rfl
  | succ n ih =>
    show (execIter (busyEnv 0 (some 2)) false false
      (execSteps (busyEnv 0 (some 2)) false false
        (initLoopState connT0 []) n)).done = false
    rw [execIter_busy_t0 (busyEnv 0 (some 2)) false false _ ih rfl rfl]
    simp [ih]

/-- Claim C5 as stated is false when the connection's timeout budget is 0:
with the retry flag false and an engine that returns BUSY on every
submission, the call never terminates (no iteration count ever reaches
`done`), because the `m_timeoutMs == 0` disjunct sends every BUSY iteration
to the backoff branch before the retry flag is even consulted. -/
theorem C5_counterexample :
    ¬ ∃ n, (execSteps (busyEnv 0 (some 2)) false false
      (initLoopState connT0 []) n).done = true := by
  rintro ⟨n, hn⟩
  rw [c5_nonterm_aux n] at hn
  exact Bool.false_ne_true hn

/-- Claim C5 (amended): with the retry flag false and a NON-ZERO timeout
budget, against an engine that returns BUSY on every submission, the call
terminates — by iteration 2 at the latest — returning failure with
`retValue = SQLITE_BUSY`, having attempted exactly one `Reconnect`
(the BUSY case escalates immediately because the backoff condition
`m_timeoutMs == 0 || retry && i++ < 10` is false). -/
theorem C5_terminates (t : Nat) (ht : t ≠ 0) (rOpen : Option Nat)
    (conn : Conn) (rs0 : List (List String)) (rc : Bool) :
    (execSteps (busyEnv t rOpen) false rc (initLoopState conn rs0) 2).done
      = true ∧
    (execSteps (busyEnv t rOpen) false rc
      (initLoopState conn rs0) 2).reconnects = 1 ∧
    (execSteps (busyEnv t rOpen) false rc (initLoopState conn rs0) 2).retValue
      = SQLITE_BUSY ∧
    (conn.m_isOpened = true →
      (ExecStatement (busyEnv t rOpen) conn false rc rs0 2).1 = false) := by
  have h1 : execSteps (busyEnv t rOpen) false rc (initLoopState conn rs0) 1 =
      doReconnect (busyEnv t rOpen)
        (afterSubmit (busyEnv t rOpen) rc (initLoopState conn rs0)) := by
    show execIter (busyEnv t rOpen) false rc _ = _
    exact execIter_busy_noretry_reconnect (busyEnv t rOpen) rc _ rfl rfl ht rfl
  have main :
      (execSteps (busyEnv t rOpen) false rc (initLoopState conn rs0) 2).done
        = true ∧
      (execSteps (busyEnv t rOpen) false rc
        (initLoopState conn rs0) 2).reconnects = 1 ∧
      (execSteps (busyEnv t rOpen) false rc
        (initLoopState conn rs0) 2).retValue = SQLITE_BUSY := by
    cases rOpen with
    | none =>
      have hdone1 : (execSteps (busyEnv t none) false rc
          (initLoopState conn rs0) 1).done = true := by
        rw [h1]; simp [Reconnect, busyEnv]
      have h2 : execSteps (busyEnv t none) false rc
          (initLoopState conn rs0) 2 =
          execSteps (busyEnv t none) false rc (initLoopState conn rs0) 1 := by
        show execIter (busyEnv t none) false rc _ = _
        exact execIter_of_done _ false rc _ hdone1
      rw [h2, h1]
      refine ⟨by simp [Reconnect, busyEnv], by simp [initLoopState],
        by simp [Reconnect, busyEnv]⟩
    | some hdl =>
      have hdone1 : (execSteps (busyEnv t (some hdl)) false rc
          (initLoopState conn rs0) 1).done = false := by
        rw [h1]; simp [Reconnect, busyEnv]
      have halready1 : (execSteps (busyEnv t (some hdl)) false rc
          (initLoopState conn rs0) 1).alreadyTried = true := by
        rw [h1]; simp
      have h2 : execSteps (busyEnv t (some hdl)) false rc
          (initLoopState conn rs0) 2 =
          { afterSubmit (busyEnv t (some hdl)) rc
              (execSteps (busyEnv t (some hdl)) false rc
                (initLoopState conn rs0) 1)
            with done := true } := by
        show execIter (busyEnv t (some hdl)) false rc _ = _
        exact execIter_busy_noretry_giveup (busyEnv t (some hdl)) rc _ hdone1
          rfl ht halready1
      rw [h2]
      refine ⟨rfl, ?_, rfl⟩
      rw [h1]
      simp [initLoopState]
  refine ⟨main.1, main.2.1, main.2.2, ?_⟩
  intro hop
  unfold ExecStatement
  rw [if_neg (by simp [IsReady, hop])]
  simp [main.2.2, SQLITE_BUSY]

/-- Witness for `C5_terminates`: default budget 3000 ms, reconnect open
succeeding. -/
theorem C5_terminates_witness :
    (execSteps (busyEnv 3000 (some 2)) false false
      (initLoopState connOK []) 2).done = true ∧
    (execSteps (busyEnv 3000 (some 2)) false false
      (initLoopState connOK []) 2).reconnects = 1 ∧
    (execSteps (busyEnv 3000 (some 2)) false false
      (initLoopState connOK []) 2).retValue = SQLITE_BUSY ∧
    (ExecStatement (busyEnv 3000 (some 2)) connOK false false [] 2).1
      = false :=
  ⟨(C5_terminates 3000 (by decide) (some 2) connOK [] false).1,
   (C5_terminates 3000 (by decide) (some 2) connOK [] false).2.1,
   (C5_terminates 3000 (by decide) (some 2) connOK [] false).2.2.1,
   (C5_terminates 3000 (by decide) (some 2) connOK [] false).2.2.2 rfl⟩

/-- Claim C6 (confirmed): with a zero timeout budget, as long as submissions
return BUSY the loop takes the 15 ms backoff branch on every iteration and
never attempts a `Reconnect` — `done` stays false, one submission and one
sleep per iteration — and as soon as a submission returns success the call
terminates successfully, still with zero reconnect attempts.  This holds
for both values of the retry flag. -/
theorem C6_unlimitedRetries (env : Env) (k : Nat)
    (ht : ∀ j, env.timeoutAt j = 0)
    (hb : ∀ j, j < k → (env.engine j).status = SQLITE_BUSY)
    (retry rc : Bool) (conn : Conn) (rs0 : List (List String)) :
    (∀ j, j ≤ k →
      (execSteps env retry rc (initLoopState conn rs0) j).done = false ∧
      (execSteps env retry rc (initLoopState conn rs0) j).reconnects = 0 ∧
      (execSteps env retry rc (initLoopState conn rs0) j).sleeps = j ∧
      (execSteps env retry rc (initLoopState conn rs0) j).iter = j) ∧
    ((env.engine k).status = 0 →
      (execSteps env retry rc (initLoopState conn rs0) (k + 1)).done = true ∧
      (execSteps env retry rc (initLoopState conn rs0) (k + 1)).retValue
        = 0 ∧
      (execSteps env retry rc
        (initLoopState conn rs0) (k + 1)).reconnects = 0) := by
  have hrun : ∀ j, j ≤ k →
      (execSteps env retry rc (initLoopState conn rs0) j).done = false ∧
      (execSteps env retry rc (initLoopState conn rs0) j).reconnects = 0 ∧
      (execSteps env retry rc (initLoopState conn rs0) j).sleeps = j ∧
      (execSteps env retry rc (initLoopState conn rs0) j).iter = j := by
    intro j
    induction j with
    | zero => intro _; exact ⟨rfl, rfl, rfl, rfl⟩
    | succ j ih =>
      intro hj
      obtain ⟨hd, hr, hs, hit⟩ := ih (by omega)
      have hstep : execSteps env retry rc (initLoopState conn rs0) (j + 1) =
          sleepStep (afterSubmit env rc
            (execSteps env retry rc (initLoopState conn rs0) j)) := by
        show execIter env retry rc _ = _
        exact execIter_busy_t0 env retry rc _ hd
          (by rw [hit]; exact hb j (by omega)) (ht _)
      rw [hstep]
      refine ⟨?_, ?_, ?_, ?_⟩ <;> simp [hd, hr, hs, hit]
  refine ⟨hrun, ?_⟩
  intro hk
  obtain ⟨hd, hr, hs, hit⟩ := hrun k (le_refl k)
  have hstep : execSteps env retry rc (initLoopState conn rs0) (k + 1) =
      { afterSubmit env rc
          (execSteps env retry rc (initLoopState conn rs0) k)
        with done := true } := by
    show execIter env retry rc _ = _
    exact execIter_success env retry rc _ hd (by rw [hit]; exact hk)
  rw [hstep]
  refine ⟨rfl, ?_, ?_⟩ <;> simp [hit, hk, hr]

/-- Engine for the `C6_unlimitedRetries` witness: BUSY twice, then success. -/
def envC6 : Env :=
  ⟨fun n => if n < 2 then ⟨SQLITE_BUSY, []⟩ else ⟨0, []⟩,
   fun _ => 0, fun _ => some 2, fun _ => 0⟩

/-- Witness for `C6_unlimitedRetries`: two BUSY submissions under a zero
budget sleep twice without reconnecting, and the third submission's success
ends the call. -/
theorem C6_unlimitedRetries_witness :
    ((execSteps envC6 true false (initLoopState connT0 []) 2).done = false ∧
     (execSteps envC6 true false (initLoopState connT0 []) 2).reconnects
       = 0 ∧
     (execSteps envC6 true false (initLoopState connT0 []) 2).sleeps = 2 ∧
     (execSteps envC6 true false (initLoopState connT0 []) 2).iter = 2) ∧
    ((execSteps envC6 true false (initLoopState connT0 []) 3).done = true ∧
     (execSteps envC6 true false (initLoopState connT0 []) 3).retValue = 0 ∧
     (execSteps envC6 true false (initLoopState connT0 []) 3).reconnects
       = 0) :=
  ⟨(C6_unlimitedRetries envC6 2 (fun j => rfl)
      (fun j hj => by interval_cases j <;> rfl) true false connT0 []).1 2
      (le_refl 2),
   (C6_unlimitedRetries envC6 2 (fun j => rfl)
      (fun j hj => by interval_cases j <;> rfl) true false connT0 []).2 rfl⟩

end A3D
namespace A3D

/-! ## C7: which timeout value does an in-flight retry loop observe? -/

/-- Master case analysis on one loop iteration: every outcome of `execIter`
is one of the eight branch results (or the unchanged state when already
done). -/
lemma execIter_cases (env : Env) (retry rc : Bool) (s : LoopState)
    (P : LoopState → Prop)
    (hdone : s.done = true → P s)
    (h1 : P (sleepStep (afterSubmit env rc s)))
    (h2 : P (sleepStep { afterSubmit env rc s with i := s.i + 1 }))
    (h3 : P { afterSubmit env rc s with i := s.i + 1, done := true })
    (h4 : P (doReconnect env { afterSubmit env rc s with i := s.i + 1 }))
    (h5 : P { afterSubmit env rc s with done := true })
    (h6 : P (doReconnect env (afterSubmit env rc s)))
    (h7 : P { afterSubmit env rc s with
        trace := (afterSubmit env rc s).trace ++ [Event.diag], done := true })
    (h8 : P (doReconnect env { afterSubmit env rc s with
        trace := (afterSubmit env rc s).trace ++ [Event.diag] })) :
    P (execIter env retry rc s) := by
  by_cases h0 : s.done = true
  · rw [execIter_of_done env retry rc s h0]; exact hdone h0
  · rw [Bool.not_eq_true] at h0
    by_cases hb : (env.engine s.iter).status = SQLITE_BUSY
    · by_cases ht : env.timeoutAt s.iter = 0
      · rw [execIter_busy_t0 env retry rc s h0 hb ht]; exact h1
      · cases retry with
        | false =>
          cases ha : s.alreadyTried with
          | false =>
            rw [execIter_busy_noretry_reconnect env rc s h0 hb ht ha]; exact h6
          | true =>
            rw [execIter_busy_noretry_giveup env rc s h0 hb ht ha]; exact h5
        | true =>
          by_cases hi : s.i < 10
          · rw [execIter_busy_retry_sleep env rc s h0 hb ht hi]; exact h2
          · cases ha : s.alreadyTried with
            | false =>
              rw [execIter_busy_retry_reconnect env rc s h0 hb ht hi ha]
              exact h4
            | true =>
              rw [execIter_busy_retry_giveup env rc s h0 hb ht hi ha]; exact h3
    · by_cases hz : (env.engine s.iter).status = 0
      · rw [execIter_success env retry rc s h0 hz]; exact h5
      · by_cases hio : (env.engine s.iter).status = SQLITE_IOERR
        · cases ha : s.alreadyTried with
          | false => rw [execIter_ioerr_reconnect env retry rc s h0 hio ha]
                     exact h6
          | true => rw [execIter_ioerr_giveup env retry rc s h0 hio ha]
                    exact h5
        · cases ha : s.alreadyTried with
          | false => rw [execIter_other_reconnect env retry rc s h0 hb hz hio ha]
                     exact h8
          | true => rw [execIter_other_giveup env retry rc s h0 hb hz hio ha]
                    exact h7

/-- One iteration advances the iteration counter by one, or not at all when
the loop had already finished. -/
lemma execIter_iter_cases (env : Env) (retry rc : Bool) (s : LoopState) :
    (execIter env retry rc s).iter = s.iter ∨
    (execIter env retry rc s).iter = s.iter + 1 := by
  apply execIter_cases env retry rc s
    (fun x => x.iter = s.iter ∨ x.iter = s.iter + 1)
  · intro _; exact Or.inl rfl
  all_goals exact Or.inr (by simp)

/-- One loop iteration depends on the timeout schedule only through the
value observed at this iteration's index. -/
lemma execIter_env_congr (env env2 : Env) (retry rc : Bool) (s : LoopState)
    (heng : env.engine = env2.engine) (hch : env.changesVal = env2.changesVal)
    (hro : env.reconnectOpen = env2.reconnectOpen)
    (htt : env.timeoutAt s.iter = env2.timeoutAt s.iter) :
    execIter env retry rc s = execIter env2 retry rc s := by
  unfold execIter afterSubmit doReconnect
  rw [heng, hch, hro, htt]

lemma execSteps_succ_first (env : Env) (retry rc : Bool) (s : LoopState)
    (n : Nat) :
    execSteps env retry rc s (n + 1) =
      execSteps env retry rc (execIter env retry rc s) n := by
  induction n generalizing s with
  | zero => rfl
  | succ n ih =>
    show execIter env retry rc (execSteps env retry rc s (n + 1)) = _
    rw [ih]
    rfl

/-- Engine always BUSY; the member `m_timeoutMs` reads 3000 at iteration 0
and 0 from iteration 1 on — i.e. `SetTimeout(0)` lands after the first
iteration of a call that entered its loop under budget 3000. -/
def envC7code : Env :=
  ⟨fun _ => ⟨SQLITE_BUSY, []⟩, fun _ => 0, fun _ => some 2,
   fun n => if n = 0 then 3000 else 0⟩

/-- Modelled from the spec: "an ExecStatement call already inside its retry
loop continues to use the budget value that was in effect when it entered
the loop".  `entrySchedule T` is the timeout schedule this sentence
predicts: every iteration observes the entry value `T 0`. -/
def entrySchedule (T : Nat → Nat) : Nat → Nat := fun _ => T 0

/-- `envC7code` under the spec's predicted (constant entry-value) timeout
schedule. -/
def envC7spec : Env := { envC7code with
  timeoutAt := entrySchedule envC7code.timeoutAt }

/-- Claim C7 as stated is false: the loop re-reads `m_timeoutMs` on every
BUSY iteration, so a `SetTimeout(0)` interleaved after the first iteration
changes the remainder of an in-flight call.  Under the spec's predicted
entry-value schedule the call (retry flag false, budget 3000 at entry,
always-BUSY engine, reconnect succeeding) is done after 2 iterations;
under the member re-read by the code it is not done after 2 iterations —
iteration 1 observes the new value 0 and sleeps instead of giving up. -/
theorem C7_counterexample :
    (execSteps envC7spec false false (initLoopState connOK []) 2).done
      = true ∧
    (execSteps envC7code false false (initLoopState connOK []) 2).done
      = false ∧
    (execSteps envC7code false false (initLoopState connOK []) 2).sleeps
      = 1 := by
  refine ⟨by decide, by decide, by decide⟩

/-- Claim C7 (amended): `SetTimeout` takes effect immediately, also for
calls already inside their retry loop: each iteration re-reads the budget,
and the behaviour of `n` further loop iterations is determined by (exactly)
the budget values in effect at those `n` iterations — two schedules
agreeing on the window `[s.iter, s.iter + n)` produce identical runs,
whatever the entry value was. -/
theorem C7_timeoutPerIteration (env env2 : Env) (retry rc : Bool)
    (s : LoopState) (n : Nat)
    (heng : env.engine = env2.engine)
    (hch : env.changesVal = env2.changesVal)
    (hro : env.reconnectOpen = env2.reconnectOpen)
    (htw : ∀ j, s.iter ≤ j → j < s.iter + n →
      env.timeoutAt j = env2.timeoutAt j) :
    execSteps env retry rc s n = execSteps env2 retry rc s n := by
  induction n generalizing s with
  | zero => rfl
  | succ n ih =>
    have hcong : execIter env retry rc s = execIter env2 retry rc s :=
      execIter_env_congr env env2 retry rc s heng hch hro
        (htw s.iter (le_refl _) (by omega))
    rw [execSteps_succ_first, execSteps_succ_first, hcong]
    apply ih
    intro j hj1 hj2
    rcases execIter_iter_cases env2 retry rc s with hit | hit
    · rw [hit] at hj1 hj2; exact htw j (by omega) (by omega)
    · rw [hit] at hj1 hj2; exact htw j (by omega) (by omega)

/-- Same engine as `envC7code` but a timeout schedule that differs from
iteration 2 on. -/
def envC7alt : Env :=
  ⟨fun _ => ⟨SQLITE_BUSY, []⟩, fun _ => 0, fun _ => some 2,
   fun n => if n = 0 then 3000 else if n = 1 then 0 else 99⟩

/-- Witness for `C7_timeoutPerIteration`: two schedules agreeing on
iterations 0 and 1 give identical 2-iteration runs. -/
theorem C7_timeoutPerIteration_witness :
    execSteps envC7code false false (initLoopState connOK []) 2 =
      execSteps envC7alt false false (initLoopState connOK []) 2 :=
  C7_timeoutPerIteration envC7code envC7alt false false
    (initLoopState connOK []) 2 rfl rfl rfl
    (fun j h1 h2 => by
      have h0 : j < 2 := h2
      interval_cases j <;> rfl)

end A3D
namespace A3D

/-! ## C9: readers-writer guard discipline -/

/-- Current hold on `m_dbConnectionMutex` while scanning a trace. -/
inductive GuardMode where
  | outside
  | shared
  | excl
  deriving Repr, DecidableEq

/-- Guard automaton for one call whose row-count request flag is `rcMode`:
lock/unlock events must pair up, an engine submission (`execCall`) must
happen under the exclusive hold iff `rcMode` (shared hold otherwise), and a
rows-changed read (`changesCall`) is only legal under the exclusive hold.
All other events are guard-neutral.  `none` = discipline violated. -/
def guardStep (rcMode : Bool) (m : GuardMode) : Event → Option GuardMode
  | Event.lockShared =>
      if m = GuardMode.outside then some GuardMode.shared else none
  | Event.unlockShared =>
      if m = GuardMode.shared then some GuardMode.outside else none
  | Event.lockExclusive =>
      if m = GuardMode.outside then some GuardMode.excl else none
  | Event.unlockExclusive =>
      if m = GuardMode.excl then some GuardMode.outside else none
  | Event.execCall =>
      if rcMode then (if m = GuardMode.excl then some m else none)
      else (if m = GuardMode.shared then some m else none)
  | Event.changesCall => if m = GuardMode.excl then some m else none
  | _ => some m

/-- Run the guard automaton over a trace. -/
def guardRun (rcMode : Bool) : GuardMode → List Event → Option GuardMode
  | m, [] => some m
  | m, e :: es =>
    match guardStep rcMode m e with
    | none => none
    | some m2 => guardRun rcMode m2 es

lemma guardRun_append (rcMode : Bool) (m : GuardMode) (xs ys : List Event) :
    guardRun rcMode m (xs ++ ys) =
      (guardRun rcMode m xs).bind (fun m2 => guardRun rcMode m2 ys) := by
  induction xs generalizing m with
  | nil => rfl
  | cons e xs ih =>
    show guardRun rcMode m (e :: (xs ++ ys)) = _
    cases h : guardStep rcMode m e with
    | none => simp [guardRun, h]
    | some m2 => simp [guardRun, h, ih m2]

/-- The event block of the guarded submission section of one iteration
(SqliteWrapper.cpp lines 136-162): with a row-count slot, lock exclusive,
submit, read the rows-changed counter on success, unlock — one contiguous
block; without one, lock shared, submit, unlock shared. -/
def submitDelta (env : Env) (rc : Bool) (s : LoopState) : List Event :=
  if rc then
    [Event.lockExclusive, Event.execCall] ++
      (if (env.engine s.iter).status = 0 then [Event.changesCall] else []) ++
      [Event.unlockExclusive]
  else [Event.lockShared, Event.execCall, Event.unlockShared]

lemma afterSubmit_trace (env : Env) (rc : Bool) (s : LoopState) :
    (afterSubmit env rc s).trace = s.trace ++ submitDelta env rc s := rfl

lemma sleepStep_trace (s : LoopState) :
    (sleepStep s).trace = s.trace ++ [Event.sleep15] := rfl

lemma doReconnect_trace (env : Env) (s : LoopState) :
    (doReconnect env s).trace = s.trace ++ Event.reconnectAttempt ::
      (Reconnect s.conn (env.reconnectOpen s.reconnects)).2.2 := rfl

lemma guard_submit (env : Env) (rc : Bool) (s : LoopState) :
    guardRun rc GuardMode.outside (submitDelta env rc s)
      = some GuardMode.outside := by
  unfold submitDelta
  cases rc with
  | false => rfl
  | true =>
    by_cases hz : (env.engine s.iter).status = 0 <;> simp [hz] <;> rfl

lemma guard_reconnect (rcMode : Bool) (c : Conn) (o : Option Nat) :
    guardRun rcMode GuardMode.outside
      (Event.reconnectAttempt :: (Reconnect c o).2.2)
      = some GuardMode.outside := by
  cases o <;> rfl

/-- The trace of every live loop iteration is the previous trace, then the
complete guarded submission block, then guard-clean recovery events. -/
lemma execIter_trace_shape (env : Env) (retry rc : Bool) (s : LoopState)
    (h0 : s.done = false) :
    ∃ rest, (execIter env retry rc s).trace =
        s.trace ++ submitDelta env rc s ++ rest ∧
      guardRun rc GuardMode.outside rest = some GuardMode.outside := by
  apply execIter_cases env retry rc s (fun x => ∃ rest,
    x.trace = s.trace ++ submitDelta env rc s ++ rest ∧
    guardRun rc GuardMode.outside rest = some GuardMode.outside)
  · intro hc; rw [hc] at h0; exact absurd h0 (by simp)
  · exact ⟨[Event.sleep15],
      by simp [sleepStep_trace, afterSubmit_trace, List.append_assoc], rfl⟩
  · exact ⟨[Event.sleep15],
      by simp [sleepStep_trace, afterSubmit_trace, List.append_assoc], rfl⟩
  · exact ⟨[], by simp [afterSubmit_trace], rfl⟩
  · exact ⟨Event.reconnectAttempt ::
      (Reconnect s.conn (env.reconnectOpen s.reconnects)).2.2,
      by simp [doReconnect_trace, afterSubmit_trace, List.append_assoc],
      guard_reconnect rc s.conn (env.reconnectOpen s.reconnects)⟩
  · exact ⟨[], by simp [afterSubmit_trace], rfl⟩
  · exact ⟨Event.reconnectAttempt ::
      (Reconnect s.conn (env.reconnectOpen s.reconnects)).2.2,
      by simp [doReconnect_trace, afterSubmit_trace, List.append_assoc],
      guard_reconnect rc s.conn (env.reconnectOpen s.reconnects)⟩
  · exact ⟨[Event.diag],
      by simp [afterSubmit_trace, List.append_assoc], rfl⟩
  · exact ⟨Event.diag :: Event.reconnectAttempt ::
      (Reconnect s.conn (env.reconnectOpen s.reconnects)).2.2,
      by simp [doReconnect_trace, afterSubmit_trace, List.append_assoc],
      guard_reconnect rc s.conn (env.reconnectOpen s.reconnects)⟩

/-- Every live iteration's trace extension passes the guard automaton. -/
lemma execIter_trace_guard (env : Env) (retry rc : Bool) (s : LoopState) :
    ∃ d, (execIter env retry rc s).trace = s.trace ++ d ∧
      guardRun rc GuardMode.outside d = some GuardMode.outside := by
  by_cases h0 : s.done = true
  · exact ⟨[], by rw [execIter_of_done env retry rc s h0]; simp, rfl⟩
  · rw [Bool.not_eq_true] at h0
    obtain ⟨rest, htr, hg⟩ := execIter_trace_shape env retry rc s h0
    refine ⟨submitDelta env rc s ++ rest, by rw [htr, List.append_assoc], ?_⟩
    rw [guardRun_append, guard_submit]
    simpa using hg

/-- Claim C9 (confirmed): the whole trace of an `ExecStatement` run obeys
the guard discipline: every guard acquisition is released, the engine
submission of every iteration happens under the exclusive hold exactly when
a row-count slot was requested and under the shared hold otherwise (so two
no-row-count calls both hold the shared side and a readers-writer lock lets
them overlap, while a row-count call holds the exclusive side, which
excludes every other holder), the rows-changed read happens only under the
exclusive hold, and each live iteration's submission block
`lock / exec / [changes] / unlock` is contiguous — the guard is held across
both the submission and the rows-changed read. -/
theorem C9_guardDiscipline (env : Env) (retry rc : Bool) (conn : Conn)
    (rs0 : List (List String)) :
    (∀ n, guardRun rc GuardMode.outside
      (execSteps env retry rc (initLoopState conn rs0) n).trace
      = some GuardMode.outside) ∧
    (∀ s : LoopState, s.done = false →
      ∃ rest, (execIter env retry rc s).trace =
          s.trace ++ submitDelta env rc s ++ rest ∧
        guardRun rc GuardMode.outside rest = some GuardMode.outside) := by
  constructor
  · intro n
    induction n with
    | zero => rfl
    | succ n ih =>
      obtain ⟨d, hd, hg⟩ := execIter_trace_guard env retry rc
        (execSteps env retry rc (initLoopState conn rs0) n)
      show guardRun rc GuardMode.outside (execIter env retry rc
        (execSteps env retry rc (initLoopState conn rs0) n)).trace = _
      rw [hd, guardRun_append, ih]
      simpa using hg
  · exact fun s h0 => execIter_trace_shape env retry rc s h0

/-- Witness for `C9_guardDiscipline`: a row-count-requesting run against the
always-BUSY engine, three iterations; and the shape of one live iteration. -/
theorem C9_guardDiscipline_witness :
    guardRun true GuardMode.outside
      (execSteps (busyEnv 3000 (some 2)) true true
        (initLoopState connOK []) 3).trace = some GuardMode.outside ∧
    ∃ rest, (execIter (busyEnv 3000 (some 2)) true true
        (initLoopState connOK [])).trace =
        (initLoopState connOK []).trace ++
          submitDelta (busyEnv 3000 (some 2)) true (initLoopState connOK [])
          ++ rest ∧
      guardRun true GuardMode.outside rest = some GuardMode.outside :=
  ⟨(C9_guardDiscipline (busyEnv 3000 (some 2)) true true connOK []).1 3,
   (C9_guardDiscipline (busyEnv 3000 (some 2)) true true connOK []).2
     (initLoopState connOK []) rfl⟩

end A3D
